import Mathlib

/-!
# PackTrack UPS backend — shallow embedding

Shallow embedding of the PackTrack backend variants (Express/Node services
that page orders out of the fulfillment API, merge in tracking numbers,
cache the merged rows, and enrich rows with carrier tracking data).

Conventions used throughout:
* JavaScript timestamps (`Date.now()`) are natural numbers of milliseconds.
* A possibly-absent JS value (`undefined`/`null`) is an `Option`.
* JS string truthiness (`x ? … : …`, `x || d`) is modelled by `strTruthy` /
  `orTruthy`: a string is falsy exactly when it is empty.
* Network I/O is modelled by explicit environments: a page oracle for the
  fulfillment API (`none` = the request throws: timeout / 4xx / 5xx) and an
  `UPSEnv` for the carrier OAuth and tracking endpoints.  Calls are counted in
  the state so that "no network call happens" is `state unchanged`.
* The Node runtime is single threaded: a handler runs atomically between two
  `await` suspension points.  The synchronous prefix of `fetchRealOrders`
  (cache check, in-flight check, registration of the new in-flight promise)
  is therefore one atomic step, `fetchRealOrdersStep`; the completion of the
  refresh is a second step, `refreshSettle`.
-/

namespace PackTrack

/-! ## JS string helpers -/

/-- JS truthiness of a possibly-absent string: `undefined`, `null` and `""`
are falsy, every other string is truthy. -/
def strTruthy (o : Option String) : Bool :=
  match o with
  | some s => s != ""
  | none => false

/-- JS `x || d` for a possibly-absent string `x`. -/
def orTruthy (o : Option String) (d : String) : String :=
  match o with
  | some s => if s == "" then d else s
  | none => d

/-- JS `String.prototype.toLowerCase` (ASCII fragment, which covers every
status string the carrier interface produces). -/
def jsToLower (s : String) : String :=
  String.mk (s.toList.map Char.toLower)

/-- JS `s.startsWith(p)`. -/
def jsStartsWith (s p : String) : Bool :=
  p.toList.isPrefixOf s.toList

/-- JS `hay.includes(needle)`: substring containment. -/
def jsIncludes (hay needle : String) : Bool :=
  (List.range (hay.toList.length + 1)).any
    (fun i => needle.toList.isPrefixOf (hay.toList.drop i))

/-- JS `s.substring(a, b)` (for `a ≤ b`, the uses in this code base). -/
def jsSubstring (s : String) (a b : Nat) : String :=
  String.mk ((s.toList.drop a).take (b - a))

/-- JS `s.split('T')[0]`. -/
def splitDateT (s : String) : String :=
  (s.splitOn "T").headD s

/-! ## Data model — upstream records and merged rows

`RawShipment` / `RawOrder` mirror one entry of the fulfillment platform's
`/orders` listing (only the fields the backend reads).  `MergedOrder` is the
flat row produced by the merge stage of `fetchRealOrders` (server.js v8,
lines 90–103). -/

structure RawShipment where
  trackingNumber : Option String := none
  carrierCode : Option String := none
deriving DecidableEq

structure RawOrder where
  orderId : Nat := 0
  orderNumber : String := ""
  shipDate : Option String := none
  billToName : Option String := none
  itemNames : Option (List String) := none
  shipments : Option (List RawShipment) := none
  trackingNumber : Option String := none
  carrierCode : Option String := none
  orderTotal : String := "0"
  orderStatus : String := "shipped"
deriving DecidableEq

structure MergedOrder where
  orderId : String
  orderNumber : String
  shipDate : String
  customerName : String
  items : String
  trackingNumber : String
  carrierCode : String
  orderTotal : String
  orderStatus : String
  upsStatus : String
  upsLocation : String
  upsEta : String
deriving DecidableEq

/-- Tracking-number resolution of server.js (v8 debug variant), lines 79–88:
`finalTracking = "No Tracking"`, overwritten by
`o.shipments[0].trackingNumber || "No Tracking"` when the shipments array is
nonempty, `else if (o.trackingNumber) finalTracking = o.trackingNumber`. -/
def finalTrackingV8 (o : RawOrder) : String :=
  match o.shipments with
  | some (sh :: _) => orTruthy sh.trackingNumber "No Tracking"
  | _ => orTruthy o.trackingNumber "No Tracking"

/-- part_003 (v10) validity test of one shipment entry:
`s.trackingNumber && s.trackingNumber.length > 5`. -/
def validTracking (sh : RawShipment) : Bool :=
  match sh.trackingNumber with
  | some t => t != "" && decide (5 < t.length)
  | none => false

/-- Tracking-number resolution of part_003 (v10), lines 79–98: first shipment
entry whose tracking number is longer than 5 characters, else the truthy
top-level field, else the sentinel. -/
def finalTrackingV10 (o : RawOrder) : String :=
  let fromShipments : Option String :=
    match o.shipments with
    | some l =>
      match l.find? validTracking with
      | some sh => sh.trackingNumber
      | none => none
    | none => none
  match fromShipments with
  | some t => t
  | none => orTruthy o.trackingNumber "No Tracking"

/-- The resolution order as the specification words it (§4.3): "(1) nested
shipment-array tracking field, (2) top-level tracking field, (4) sentinel
\"No Tracking\"" — step (3), the secondary lookup by order id, does not exist
in the cached variants the claim cites, so it is omitted here.  This
definition follows the spec's words and is compared against the source
functions `finalTrackingV8` / `finalTrackingV10`. -/
def specTrackingResolution (o : RawOrder) : String :=
  match (o.shipments.getD []).find? (fun sh => strTruthy sh.trackingNumber) with
  | some sh => orTruthy sh.trackingNumber "No Tracking"
  | none => orTruthy o.trackingNumber "No Tracking"

/-- The merge stage of server.js (v8), lines 90–103.  `billToName = none`
models an absent `billTo` object; `orderTotal` is kept as the string the JS
`String(...)` conversion produces. -/
def mapOrderV8 (o : RawOrder) : MergedOrder where
  orderId := toString o.orderId
  orderNumber := o.orderNumber
  shipDate :=
    match o.shipDate with
    | some d => if d == "" then "N/A" else splitDateT d
    | none => "N/A"
  customerName := (o.billToName).getD "Unknown"
  items :=
    match o.itemNames with
    | some l => String.intercalate ", " l
    | none => ""
  trackingNumber := finalTrackingV8 o
  carrierCode := orTruthy o.carrierCode "ups"
  orderTotal := o.orderTotal
  orderStatus := o.orderStatus
  upsStatus := "Shipped"
  upsLocation := "Carrier Facility"
  upsEta := "Pending"

/-! ## Pagination (server.js v8, /orders lines 124–140 and /tracking 143–166) -/

structure PageResponse (α : Type) where
  data : List α
  total : Nat
  page : Nat
  totalPages : Nat
deriving DecidableEq

/-- `Math.ceil(a / b)` for naturals, `b ≥ 1`. -/
def ceilDiv (a b : Nat) : Nat :=
  (a + b - 1) / b

/-- The pagination performed by both read endpoints:
`start = (page-1)*limit`, `paged = rows.slice(start, start+limit)`,
`totalPages = Math.ceil(rows.length/limit) || 1`. -/
def paginateV8 {α : Type} (rows : List α) (page limit : Nat) : PageResponse α :=
  let start := (page - 1) * limit
  let paged := (rows.drop start).take limit
  let tp := ceilDiv rows.length limit
  { data := paged
    total := rows.length
    page := page
    totalPages := if tp = 0 then 1 else tp }

/-- One row of the /tracking response (server.js v8, lines 147–157). -/
structure TrackingRow where
  orderNumber : String
  trackingNumber : String
  upsStatus : String
  location : String
  delivered : Bool
  expectedDelivery : String
  lastUpdated : Nat
  trackingUrl : String
  isError : Bool
deriving DecidableEq

def toTrackingRow (now : Nat) (o : MergedOrder) : TrackingRow where
  orderNumber := o.orderNumber
  trackingNumber := o.trackingNumber
  upsStatus := o.upsStatus
  location := o.upsLocation
  delivered := false
  expectedDelivery := o.upsEta
  lastUpdated := now
  trackingUrl := "https://www.ups.com/track?tracknum=" ++ o.trackingNumber
  isError := false

/-- The trackable subset served by /tracking:
`orders.filter(o => o.trackingNumber !== "No Tracking").map(...)`. -/
def trackableRows (now : Nat) (orders : List MergedOrder) : List TrackingRow :=
  (orders.filter (fun o => o.trackingNumber != "No Tracking")).map (toTrackingRow now)

/-! ## Order cache and the in-flight refresh (server.js v8, lines 17–23, 42–118)

The promise stored in `inFlightOrders` is identified by a number
(`nextPromise` is the id the next created promise will get); `upstreamStarts`
counts how many refreshes — hence upstream page-fetch loops — have been
launched. -/

def PAGE_SIZE : Nat := 50
def MAX_PAGES : Nat := 5
def CACHE_TTL_MS : Nat := 60000

structure CacheState where
  fetchedAt : Nat
  data : List MergedOrder
deriving DecidableEq

structure ServerState where
  ordersCache : CacheState
  inFlightOrders : Option Nat
  nextPromise : Nat
  upstreamStarts : Nat
deriving DecidableEq

inductive FetchResult where
  | cached (d : List MergedOrder)
  | pending (id : Nat)
deriving DecidableEq

/-- server.js line 44: `ordersCache.fetchedAt && now - ordersCache.fetchedAt <
CACHE_TTL_MS`.  (With JS numbers a clock running backwards gives a negative
difference, still `< TTL`; truncated `Nat` subtraction gives `0 < TTL` — the
same verdict.) -/
def cacheFresh (now : Nat) (c : CacheState) : Bool :=
  c.fetchedAt != 0 && decide (now - c.fetchedAt < CACHE_TTL_MS)

/-- The synchronous prefix of `fetchRealOrders` (lines 42–50 and 117): return
the cached data when fresh, join the in-flight promise when one exists,
otherwise register a new in-flight promise and launch the refresh.  In the
Node event loop this whole prefix runs without a suspension point, so it is
one atomic step. -/
def fetchRealOrdersStep (now : Nat) (s : ServerState) : FetchResult × ServerState :=
  if cacheFresh now s.ordersCache then
    (.cached s.ordersCache.data, s)
  else
    match s.inFlightOrders with
    | some id => (.pending id, s)
    | none =>
      (.pending s.nextPromise,
       { s with
          inFlightOrders := some s.nextPromise
          nextPromise := s.nextPromise + 1
          upstreamStarts := s.upstreamStarts + 1 })

/-- A burst of concurrent read requests: each one runs `fetchRealOrdersStep`
atomically, in arrival order, with no refresh completion in between. -/
def foldFetches : List Nat → ServerState → List FetchResult × ServerState
  | [], s => ([], s)
  | n :: ns, s =>
    let p := fetchRealOrdersStep n s
    let q := foldFetches ns p.2
    (p.1 :: q.1, q.2)

/-! ## The upstream paging loop (server.js v8, lines 56–107)

`pages p = none` models `fetchShipStationPage(p)` throwing (timeout, 4xx,
5xx); `some l` is the page's order array.  The backend's `SS_AUTH` guard is
assumed satisfied (credentials configured). -/

structure UpstreamEnv where
  pages : Nat → Option (List RawOrder)

/-- The `while (page <= MAX_PAGES)` loop, with `fuel` remaining iterations:
stop on an empty page or a short page; a thrown page fetch aborts the whole
loop (the `try` wraps the loop, so `none` propagates to the caller). -/
def fetchPagesAux (env : UpstreamEnv) : Nat → Nat → List RawOrder → Option (List RawOrder)
  | 0, _, acc => some acc
  | fuel + 1, page, acc =>
    match env.pages page with
    | none => none
    | some l =>
      if l.length = 0 then some acc
      else if l.length < PAGE_SIZE then some (acc ++ l)
      else fetchPagesAux env fuel (page + 1) (acc ++ l)

def fetchAllPagesV8 (env : UpstreamEnv) : Option (List RawOrder) :=
  fetchPagesAux env MAX_PAGES 1 []

/-- Body of the in-flight refresh: page loop plus merge.  `none` means the
`catch` branch ran (lines 109–111) — the promise then resolves to `[]` and
the cache is left untouched. -/
def runRefreshV8 (env : UpstreamEnv) : Option (List MergedOrder) :=
  (fetchAllPagesV8 env).map (fun l => l.map mapOrderV8)

/-- Completion of the refresh promise at time `now2`: on success the cache is
replaced wholesale (line 106) and the promise resolves to the merged rows; on
failure the promise resolves to `[]`; either way the `finally` clears
`inFlightOrders` (line 113). -/
def refreshSettle (env : UpstreamEnv) (now2 : Nat) (s : ServerState) :
    List MergedOrder × ServerState :=
  match runRefreshV8 env with
  | some m => (m, { s with ordersCache := ⟨now2, m⟩, inFlightOrders := none })
  | none => ([], { s with inFlightOrders := none })

/-- The promise's resolved value alone (what `await fetchRealOrders()` gives
a caller once the refresh finishes). -/
def fetchRealOrdersValue (env : UpstreamEnv) : List MergedOrder :=
  (runRefreshV8 env).getD []

/-! ## Read and sync endpoints (server.js v8, lines 124–174)

Each handler is modelled as: the atomic `fetchRealOrdersStep`, then — when a
refresh is pending — awaiting its settlement (`refreshSettle` with the same
environment), then the pure response construction. -/

def ordersGETRun (env : UpstreamEnv) (now now2 page limit : Nat) (s : ServerState) :
    PageResponse MergedOrder × ServerState :=
  let p := fetchRealOrdersStep now s
  match p.1 with
  | .cached d => (paginateV8 d page limit, p.2)
  | .pending _ =>
    let q := refreshSettle env now2 p.2
    (paginateV8 q.1 page limit, q.2)

def trackingGETRun (env : UpstreamEnv) (now now2 page limit : Nat) (s : ServerState) :
    PageResponse TrackingRow × ServerState :=
  let p := fetchRealOrdersStep now s
  match p.1 with
  | .cached d => (paginateV8 (trackableRows now d) page limit, p.2)
  | .pending _ =>
    let q := refreshSettle env now2 p.2
    (paginateV8 (trackableRows now q.1) page limit, q.2)

structure SyncResponse where
  status : Nat
  success : Bool
  count : Option Nat
deriving DecidableEq

/-- POST /sync/orders (server.js v8, lines 169–174): reset the cache to
`{fetchedAt: 0, data: []}`, then await `fetchRealOrders()`, then answer 200
with the count when nonempty, 500 `{success:false}` otherwise. -/
def syncOrdersRun (env : UpstreamEnv) (now now2 : Nat) (s : ServerState) :
    SyncResponse × ServerState :=
  let s1 : ServerState := { s with ordersCache := ⟨0, []⟩ }
  let p := fetchRealOrdersStep now s1
  let r :=
    match p.1 with
    | .cached d => (d, p.2)
    | .pending _ => refreshSettle env now2 p.2
  if r.1.length ≠ 0 then
    (⟨200, true, some r.1.length⟩, r.2)
  else
    (⟨500, false, none⟩, r.2)

/-! ## performSystemSync (part_000, v22 variant, lines 329–388)

Multi-page sync into the document store.  Only the accumulated count is
relevant to the claims; the per-page Firestore batch commit is absorbed into
the page step.  `senv p = none` models the page's fetch (or commit) throwing,
which the per-page `catch` turns into `break`. -/

def syncPagesAux (senv : Nat → Option (List RawOrder)) : Nat → Nat → Nat → Nat
  | 0, _, total => total
  | fuel + 1, page, total =>
    match senv page with
    | none => total
    | some l =>
      if l.length = 0 then total
      else if l.length < 50 then total + l.length
      else syncPagesAux senv fuel (page + 1) (total + l.length)

def performSystemSyncCount (senv : Nat → Option (List RawOrder)) : Nat :=
  syncPagesAux senv MAX_PAGES 1 0

/-! ## Carrier client: OAuth token and tracking lookups

`UPSEnv` models the carrier side: `creds` is the configured client-id/secret
pair (already base64'd; `none` when either env var is missing), `oauthResp`
the outcome of one token exchange (`none` = rejected/thrown), `trackResp tn`
the outcome of one tracking-detail GET (`none` = timeout/4xx/5xx thrown;
`some b` a 2xx body, with every parsed field optional so a malformed body is
`some` of an all-`none` record). -/

structure TrackBody where
  statusDescription : Option String := none
  city : Option String := none
  stateProvince : Option String := none
  deliveryDate : Option String := none
deriving DecidableEq

structure UPSEnv where
  creds : Option String
  oauthResp : Option String
  trackResp : String → Option TrackBody

structure TokenState where
  upsToken : Option String
  upsTokenExpiry : Nat
  oauthCalls : Nat
deriving DecidableEq

/-- `getUPSToken` of part_000 lines 32–57 (identically part_001 lines 45–60):
return the cached token while `upsToken && Date.now() < upsTokenExpiry`;
return `null` without an exchange when credentials are missing; otherwise
exchange, and on success cache the token with expiry `now + 3500*1000`
(3 500 s, under the ~1 h lifetime); the `catch` yields `null`. -/
def getUPSToken_v13 (env : UPSEnv) (now : Nat) (s : TokenState) :
    Option String × TokenState :=
  if strTruthy s.upsToken && decide (now < s.upsTokenExpiry) then
    (s.upsToken, s)
  else
    match env.creds with
    | none => (none, s)
    | some _ =>
      match env.oauthResp with
      | some tok =>
        (some tok, ⟨some tok, now + 3500 * 1000, s.oauthCalls + 1⟩)
      | none => (none, { s with oauthCalls := s.oauthCalls + 1 })

/-- `getUPSToken` of part_006 lines 41–66: same shape but with no credential
guard (the exchange is attempted regardless) and expiry `now + 50*60*1000`
(50 min). -/
def getUPSToken_v6 (env : UPSEnv) (now : Nat) (s : TokenState) :
    Option String × TokenState :=
  if strTruthy s.upsToken && decide (now < s.upsTokenExpiry) then
    (s.upsToken, s)
  else
    match env.oauthResp with
    | some tok =>
      (some tok, ⟨some tok, now + 50 * 60 * 1000, s.oauthCalls + 1⟩)
    | none => (none, { s with oauthCalls := s.oauthCalls + 1 })

/-! ### part_001 (v19) `trackWithUPS`, lines 62–94 -/

structure TrackOutcome19 where
  status : String
  location : String
  eta : String
deriving DecidableEq

/-- The fixed pre-transit sentinel of part_001/part_000(v22): returned for
non-carrier-format numbers and from the `catch`. -/
def preTransitSentinel : TrackOutcome19 :=
  ⟨"Label Created", "Pre-Transit", "Pending Scan"⟩

structure Client19State where
  token : TokenState
  trackCalls : Nat
deriving DecidableEq

/-- part_001 lines 84–88: `eta = "Pending Scan"` unless the raw date has
exactly 8 characters, then `MM/DD/YYYY` via `substr`. -/
def formatEta19 (raw : Option String) : String :=
  match raw with
  | some d =>
    if d == "" then "Pending Scan"
    else if d.length = 8 then
      jsSubstring d 4 6 ++ "/" ++ jsSubstring d 6 8 ++ "/" ++ jsSubstring d 0 4
    else "Pending Scan"
  | none => "Pending Scan"

/-- part_001 `trackWithUPS`: short-circuit non-`1Z` numbers to the sentinel
(line 64) with no network traffic; otherwise get a token (a missing token is
thrown and caught, yielding the sentinel), issue the tracking GET, and parse
the first activity.  A city interpolates as `` city, stateProvince `` — an
absent state renders as the string "undefined", as JS template literals do. -/
def trackWithUPS_v19 (env : UPSEnv) (now : Nat) (tn : String) (s : Client19State) :
    TrackOutcome19 × Client19State :=
  if !(jsStartsWith tn "1Z") then
    (preTransitSentinel, s)
  else
    let t := getUPSToken_v13 env now s.token
    match t.1 with
    | none => (preTransitSentinel, { s with token := t.2 })
    | some _ =>
      let s1 : Client19State := ⟨t.2, s.trackCalls + 1⟩
      match env.trackResp tn with
      | none => (preTransitSentinel, s1)
      | some b =>
        let status := orTruthy b.statusDescription "Label Created"
        let location :=
          if strTruthy b.city then
            (b.city.getD "") ++ ", " ++ (b.stateProvince.getD "undefined")
          else "Pre-Transit"
        ((⟨status, location, formatEta19 b.deliveryDate⟩ : TrackOutcome19), s1)

/-! ### part_004 / part_006 `trackUPS` -/

/-- The record shape produced by part_004's `trackUPS` (and, with the same
fields, part_006's).  The JS success object carries no `error` key
(`undefined`, falsy) — modelled as `error := false`; likewise absent fields
of the part_006 auth-error object are modelled by their falsy defaults. -/
structure TrackRecord4 where
  status : String
  location : String
  expectedDelivery : String
  delivered : Bool
  lastUpdated : Nat
  trackingUrl : String
  error : Bool
deriving DecidableEq

def CACHE_DURATION_MS : Nat := 30 * 60 * 1000

/-- `trackingCache` as an association list; `Map.set` prepends, `Map.get`
takes the most recent entry. -/
def cacheLookup (c : List (String × Nat × TrackRecord4)) (tn : String) :
    Option (Nat × TrackRecord4) :=
  (c.find? (fun e => e.1 == tn)).map (fun e => e.2)

/-- The `catch` sentinel of part_004 lines 103–114 (its `lastUpdated` is
`Date.now()`). -/
def pendingUpdateSentinel (now : Nat) : TrackRecord4 :=
  ⟨"Pending Update", "", "--", false, now, "", true⟩

/-- The `catch` sentinel of part_006 lines 117–126 (no `lastUpdated` key —
falsy default 0). -/
def pendingUpdateSentinelNoTs : TrackRecord4 :=
  ⟨"Pending Update", "", "--", false, 0, "", true⟩

/-- `[city, stateProvince].filter(Boolean).join(", ")`. -/
def joinCityState (b : TrackBody) : String :=
  String.intercalate ", "
    (([b.city, b.stateProvince].filterMap id).filter (fun s => !s.isEmpty))

/-- part_004 line 88: `raw && raw.length === 8` then `MM/DD/YYYY`, else "--". -/
def formatDate4 (raw : Option String) : String :=
  match raw with
  | some d =>
    if d == "" then "--"
    else if d.length = 8 then
      jsSubstring d 4 6 ++ "/" ++ jsSubstring d 6 8 ++ "/" ++ jsSubstring d 0 4
    else "--"
  | none => "--"

structure Client4State where
  trackingCache : List (String × Nat × TrackRecord4)
  networkCalls : Nat
deriving DecidableEq

/-- The fetch-fresh path of part_004's `trackUPS` (lines 70–114).  Its
`getUPSToken` (lines 45–59) holds no token cache: every call is one OAuth
POST, throwing `"UPS Auth Failed"` on rejection — caught by `trackUPS`'s own
`try`, like a thrown tracking GET, yielding the Pending-Update sentinel. -/
def trackFresh_v4 (env : UPSEnv) (now : Nat) (tn : String) (s : Client4State) :
    TrackRecord4 × Client4State :=
  let s1 : Client4State := { s with networkCalls := s.networkCalls + 1 }
  match env.oauthResp with
  | none => (pendingUpdateSentinel now, s1)
  | some _ =>
    let s2 : Client4State := { s1 with networkCalls := s1.networkCalls + 1 }
    match env.trackResp tn with
    | none => (pendingUpdateSentinel now, s2)
    | some b =>
      let status := orTruthy b.statusDescription "Unknown"
      let r : TrackRecord4 :=
        ⟨status, joinCityState b, formatDate4 b.deliveryDate,
         jsIncludes (jsToLower status) "delivered", now,
         "https://www.ups.com/track?loc=null&tracknum=" ++ tn ++ "&requester=WT/trackdetails",
         false⟩
      (r, { s2 with trackingCache := (tn, now, r) :: s2.trackingCache })

/-- part_004 `trackUPS`, lines 61–115: serve a sufficiently fresh cache
entry, otherwise fetch fresh.  There is no tracking-number format check. -/
def trackUPS_v4 (env : UPSEnv) (now : Nat) (tn : String) (s : Client4State) :
    TrackRecord4 × Client4State :=
  match cacheLookup s.trackingCache tn with
  | some (ts, d) =>
    if now - ts < CACHE_DURATION_MS then (d, s) else trackFresh_v4 env now tn s
  | none => trackFresh_v4 env now tn s

def CACHE_MS : Nat := 30 * 60 * 1000

structure Client6State where
  token : TokenState
  trackingCache : List (String × Nat × TrackRecord4)
  networkCalls : Nat
deriving DecidableEq

/-- The fetch-fresh path of part_006's `trackUPS` (lines 82–126): token via
the cached-token exchange; a missing token yields the
`{status: "UPS Auth Error", error: true}` record (its other keys absent —
falsy defaults); then the tracking GET, whose `catch` yields the
Pending-Update sentinel; a 2xx body is parsed with `"Unknown"` as the default
status and the raw `deliveryDate` string (`|| "--"`) as `expectedDelivery`. -/
def trackFresh_v6 (env : UPSEnv) (now : Nat) (tn : String) (s : Client6State) :
    TrackRecord4 × Client6State :=
  let t := getUPSToken_v6 env now s.token
  let s1 : Client6State := { s with token := t.2 }
  match t.1 with
  | none => (⟨"UPS Auth Error", "", "", false, 0, "", true⟩, s1)
  | some _ =>
    let s2 : Client6State := { s1 with networkCalls := s1.networkCalls + 1 }
    match env.trackResp tn with
    | none => (pendingUpdateSentinelNoTs, s2)
    | some b =>
      let r : TrackRecord4 :=
        ⟨orTruthy b.statusDescription "Unknown", joinCityState b,
         orTruthy b.deliveryDate "--",
         jsIncludes (jsToLower (orTruthy b.statusDescription "")) "delivered", now,
         "https://www.ups.com/track?tracknum=" ++ tn,
         false⟩
      (r, { s2 with trackingCache := (tn, now, r) :: s2.trackingCache })

/-- part_006 `trackUPS`, lines 74–127: `if (!trackingNumber) return null`,
then the tracking cache, then the fresh fetch.  No format check either. -/
def trackUPS_v6 (env : UPSEnv) (now : Nat) (tn : String) (s : Client6State) :
    Option TrackRecord4 × Client6State :=
  if tn == "" then (none, s)
  else
    match cacheLookup s.trackingCache tn with
    | some (ts, d) =>
      if now - ts < CACHE_MS then (some d, s) else
        let q := trackFresh_v6 env now tn s
        (some q.1, q.2)
    | none =>
      let q := trackFresh_v6 env now tn s
      (some q.1, q.2)

/-- The delivered/status consistency invariant of the carrier records
(claim C7): the `delivered` flag holds exactly when the record's status text
contains "delivered" case-insensitively. -/
def deliveredConsistent (r : TrackRecord4) : Prop :=
  r.delivered = jsIncludes (jsToLower r.status) "delivered"

instance (r : TrackRecord4) : Decidable (deliveredConsistent r) := by
  unfold deliveredConsistent; infer_instance

/-! ## Concrete inputs used by counterexamples and witnesses -/

/-- A full upstream page entry (50 of these make one full page). -/
def sampleRaw : RawOrder :=
  { orderId := 11
    orderNumber := "PT-1001"
    shipDate := some "2025-11-02T08:00:00"
    billToName := some "Ada"
    itemNames := some ["Widget"]
    shipments := some [⟨some "1Z999AA10123456784", some "ups"⟩]
    trackingNumber := none
    carrierCode := some "ups"
    orderTotal := "19.99"
    orderStatus := "shipped" }

/-- A record carrying a shipments array whose only entry has no tracking
number, together with a truthy top-level tracking number. -/
def rawBothC2 : RawOrder :=
  { orderId := 12
    orderNumber := "PT-1002"
    shipments := some [({ trackingNumber := none } : RawShipment)]
    trackingNumber := some "1Z999AA10123456784" }

/-- Upstream environment whose page 1 is one full page and whose page 2
fetch throws. -/
def envPage2Fails : UpstreamEnv :=
  ⟨fun p => if p = 1 then some (List.replicate 50 sampleRaw) else none⟩

/-- Upstream environment whose very first page fetch throws. -/
def envPage1Fails : UpstreamEnv :=
  ⟨fun _ => none⟩

/-- Carrier environment: OAuth succeeds, every tracking GET throws. -/
def envTrackThrows : UPSEnv :=
  ⟨some "id:secret", some "tok", fun _ => none⟩

/-- Carrier environment: OAuth succeeds, every tracking GET answers 2xx with
a body carrying none of the expected fields (malformed body). -/
def envMalformedBody : UPSEnv :=
  ⟨some "id:secret", some "tok", fun _ => some {}⟩

/-- Carrier environment: OAuth succeeds and the tracking GET reports a
delivered package. -/
def envDelivered : UPSEnv :=
  ⟨some "id:secret", some "tok",
   fun _ => some ⟨some "Delivered to front door", some "Austin", some "TX", some "20251011"⟩⟩

/-- Carrier environment: OAuth succeeds and the tracking GET reports an
in-transit package. -/
def envInTransit : UPSEnv :=
  ⟨some "id:secret", some "tok",
   fun _ => some ⟨some "In Transit", some "Reno", some "NV", none⟩⟩

/-- Carrier environment with no credentials configured. -/
def envNoCreds : UPSEnv :=
  ⟨none, some "tok", fun _ => none⟩

/-! # Theorems -/

/-! ## Shared helper lemmas -/

theorem orTruthy_of_false (o : Option String) (d : String)
    (h : strTruthy o = false) : orTruthy o d = d := by
  cases o with
  | none => rfl
  | some s =>
    have hs : s = "" := by simpa [strTruthy] using h
    subst hs
    rfl

theorem orTruthy_of_some (t d : String) (h : t ≠ "") :
    orTruthy (some t) d = t := by
  simp [orTruthy, h]

theorem ne_empty_of_five_lt (t : String) (h : 5 < t.length) : t ≠ "" := by
  intro he
  subst he
  simp at h

theorem ceilDiv_ceils (a b : Nat) (hb : 1 ≤ b) :
    a ≤ b * ceilDiv a b ∧ (1 ≤ a → b * (ceilDiv a b - 1) < a) ∧
    (a = 0 → ceilDiv a b = 0) := by
  unfold ceilDiv
  have hmod := Nat.div_add_mod (a + b - 1) b
  have hr : (a + b - 1) % b < b := Nat.mod_lt _ hb
  rcases hq : (a + b - 1) / b with _ | q
  · rw [hq] at hmod
    simp only [Nat.mul_zero, Nat.zero_add] at hmod
    refine ⟨?_, ?_, ?_⟩ <;> omega
  · rw [hq] at hmod
    have hms : b * (q + 1) = b * q + b := by ring
    rw [hms] at hmod
    rw [hms]
    simp only [Nat.add_sub_cancel]
    generalize hX : b * q = X at hmod ⊢
    generalize hR : (a + b - 1) % b = R at hmod hr
    refine ⟨?_, ?_, ?_⟩ <;> omega

/-! ## C2 — tracking-number resolution order of the merge stage -/

/-- C2 (counterexample): the claimed fixed order "shipment-array tracking
number when one is found, else the top-level field, else the sentinel" fails
on server.js: for a record whose shipments array is nonempty but whose first
entry carries no tracking number, and whose top-level field does carry one,
server.js's merge yields the sentinel "No Tracking" while the claimed
resolution (`specTrackingResolution`) yields the top-level number. -/
theorem trackingOrderClaimFails :
    finalTrackingV8 rawBothC2 = "No Tracking" ∧
    specTrackingResolution rawBothC2 = "1Z999AA10123456784" ∧
    finalTrackingV8 rawBothC2 ≠ specTrackingResolution rawBothC2 ∧
    (mapOrderV8 rawBothC2).trackingNumber ≠ specTrackingResolution rawBothC2 := by
  refine ⟨rfl, rfl, by decide, by decide⟩

/-- C2 (amended): when the first shipments-array entry carries a truthy
tracking number it wins over any top-level value, in both cached variants
(in part_003 provided the number is longer than 5 characters); when the
shipments array is absent or empty the top-level field is used, else the
sentinel.  But in server.js a nonempty shipments array whose first entry has
no truthy tracking number yields the sentinel directly — the top-level field
is consulted only when the array is absent or empty. -/
theorem trackingResolutionAmended (o : RawOrder) :
    (∀ sh rest t, o.shipments = some (sh :: rest) → sh.trackingNumber = some t →
       t ≠ "" → finalTrackingV8 o = t ∧ (mapOrderV8 o).trackingNumber = t) ∧
    (o.shipments = none ∨ o.shipments = some [] →
       finalTrackingV8 o = orTruthy o.trackingNumber "No Tracking") ∧
    (∀ sh rest, o.shipments = some (sh :: rest) → strTruthy sh.trackingNumber = false →
       finalTrackingV8 o = "No Tracking") ∧
    (∀ sh rest t, o.shipments = some (sh :: rest) → sh.trackingNumber = some t →
       5 < t.length → finalTrackingV10 o = t) := by
  refine ⟨?_, ?_, ?_, ?_⟩
  · intro sh rest t hs ht hne
    have h8 : finalTrackingV8 o = t := by
      simp [finalTrackingV8, hs, ht, orTruthy_of_some t _ hne]
    exact ⟨h8, h8⟩
  · intro hs
    rcases hs with hs | hs <;> simp [finalTrackingV8, hs]
  · intro sh rest hs hfalse
    simp [finalTrackingV8, hs, orTruthy_of_false _ _ hfalse]
  · intro sh rest t hs ht hlen
    have hne : t ≠ "" := ne_empty_of_five_lt t hlen
    have hvalid : validTracking sh = true := by
      simp [validTracking, ht, hne, hlen]
    simp [finalTrackingV10, hs, List.find?_cons_of_pos _ hvalid, ht]

/-- C2 (witness): the amended resolution evaluated on a record whose only
shipment entry carries the tracking number. -/
theorem trackingResolutionAmended_check :
    finalTrackingV8 sampleRaw = "1Z999AA10123456784" ∧
    (mapOrderV8 sampleRaw).trackingNumber = "1Z999AA10123456784" ∧
    finalTrackingV10 sampleRaw = "1Z999AA10123456784" := by
  have h := trackingResolutionAmended sampleRaw
  exact ⟨(h.1 _ [] _ rfl rfl (by decide)).1,
         (h.1 _ [] _ rfl rfl (by decide)).2,
         h.2.2.2 _ [] _ rfl rfl (by decide)⟩

/-! ## C3 — pagination of the read endpoints -/

/-- C3: for every paginated read over the cached collection, with
`total = rows.length ≥ 0` and `limit ≥ 1`: `totalPages` is 1 when the
collection is empty and the exact ceiling of `total/limit` otherwise (the two
order facts make it the genuine ceiling), never 0; `data` is the pure slice
starting at `(page-1)*limit` of length at most `limit`; and on a fresh cache
both GET handlers are exactly this pure pagination of the cached collection
with the server state — in particular the upstream-start counter —
unchanged. -/
theorem paginationSpec {α : Type} (rows : List α) (page limit : Nat)
    (hl : 1 ≤ limit) :
    (paginateV8 rows page limit).total = rows.length ∧
    (paginateV8 rows page limit).data = (rows.drop ((page - 1) * limit)).take limit ∧
    (paginateV8 rows page limit).data.length ≤ limit ∧
    (rows.length = 0 → (paginateV8 rows page limit).totalPages = 1) ∧
    (1 ≤ rows.length →
       (paginateV8 rows page limit).totalPages = ceilDiv rows.length limit ∧
       rows.length ≤ limit * (paginateV8 rows page limit).totalPages ∧
       limit * ((paginateV8 rows page limit).totalPages - 1) < rows.length) ∧
    1 ≤ (paginateV8 rows page limit).totalPages ∧
    (∀ env now now2 s, cacheFresh now s.ordersCache = true →
       ordersGETRun env now now2 page limit s =
         (paginateV8 s.ordersCache.data page limit, s)) ∧
    (∀ env now now2 s, cacheFresh now s.ordersCache = true →
       trackingGETRun env now now2 page limit s =
         (paginateV8 (trackableRows now s.ordersCache.data) page limit, s)) := by
  obtain ⟨hc1, hc2, hc3⟩ := ceilDiv_ceils rows.length limit hl
  have htp : (paginateV8 rows page limit).totalPages =
      if ceilDiv rows.length limit = 0 then 1 else ceilDiv rows.length limit := rfl
  refine ⟨rfl, rfl, ?_, ?_, ?_, ?_, ?_, ?_⟩
  · simp [paginateV8]
  · intro h0
    rw [htp, if_pos (hc3 h0)]
  · intro h1
    have hne : ceilDiv rows.length limit ≠ 0 := by
      intro h
      rw [h, Nat.mul_zero] at hc1
      omega
    rw [htp, if_neg hne]
    exact ⟨rfl, hc1, hc2 h1⟩
  · rw [htp]
    rcases Nat.eq_zero_or_pos (ceilDiv rows.length limit) with h | h
    · rw [if_pos h]
    · rw [if_neg (by omega)]
      exact h
  · intro env now now2 s hfresh
    simp [ordersGETRun, fetchRealOrdersStep, hfresh]
  · intro env now now2 s hfresh
    simp [trackingGETRun, fetchRealOrdersStep, hfresh]

/-- C3 (witness): pagination of a seven-row collection at page 2, limit 3,
and the /orders handler on a fresh one-row cache. -/
theorem paginationSpec_check :
    1 ≤ 3 ∧
    (paginateV8 (List.range 7) 2 3).total = 7 ∧
    (paginateV8 (List.range 7) 2 3).data = ((List.range 7).drop 3).take 3 ∧
    (paginateV8 (List.range 7) 2 3).data.length ≤ 3 ∧
    (paginateV8 (List.range 7) 2 3).totalPages = ceilDiv 7 3 ∧
    7 ≤ 3 * (paginateV8 (List.range 7) 2 3).totalPages ∧
    3 * ((paginateV8 (List.range 7) 2 3).totalPages - 1) < 7 ∧
    1 ≤ (paginateV8 (List.range 7) 2 3).totalPages ∧
    ordersGETRun envPage1Fails 50 60 2 3
        ⟨⟨40, [mapOrderV8 sampleRaw]⟩, none, 0, 0⟩ =
      (paginateV8 [mapOrderV8 sampleRaw] 2 3,
       ⟨⟨40, [mapOrderV8 sampleRaw]⟩, none, 0, 0⟩) := by
  have h := paginationSpec (List.range 7) 2 3 (by decide)
  have h7 := (h.2.2.2.2.1 (by decide))
  have hfresh : cacheFresh 50 (⟨40, [mapOrderV8 sampleRaw]⟩ : CacheState) = true := rfl
  have hords := (paginationSpec ([] : List Nat) 2 3 (by decide)).2.2.2.2.2.2.1
    envPage1Fails 50 60 ⟨⟨40, [mapOrderV8 sampleRaw]⟩, none, 0, 0⟩ hfresh
  exact ⟨by decide, h.1, h.2.1, h.2.2.1, h7.1, h7.2.1, h7.2.2, h.2.2.2.2.2.1, hords⟩

/-! ## C8 — fresh cache serves cached data with no upstream work -/

/-- C8: when the cache is fresh (`fetchedAt` nonzero and age below the TTL),
`fetchRealOrders` answers with the cached rows and the whole server state —
including the count of launched upstream refreshes — is unchanged; this
variant performs no carrier calls anywhere, so none occur either. -/
theorem freshCacheServesCached (now : Nat) (s : ServerState)
    (h : cacheFresh now s.ordersCache = true) :
    fetchRealOrdersStep now s = (.cached s.ordersCache.data, s) ∧
    (fetchRealOrdersStep now s).2.upstreamStarts = s.upstreamStarts := by
  have h1 : fetchRealOrdersStep now s = (.cached s.ordersCache.data, s) := by
    simp [fetchRealOrdersStep, h]
  exact ⟨h1, by rw [h1]⟩

/-- C8 (witness): a cache fetched at 40 read at 50 (age 10 ms < 60 000 ms). -/
theorem freshCacheServesCached_check :
    cacheFresh 50 (⟨40, [mapOrderV8 sampleRaw]⟩ : CacheState) = true ∧
    fetchRealOrdersStep 50 ⟨⟨40, [mapOrderV8 sampleRaw]⟩, none, 9, 3⟩ =
      (.cached [mapOrderV8 sampleRaw], ⟨⟨40, [mapOrderV8 sampleRaw]⟩, none, 9, 3⟩) ∧
    (fetchRealOrdersStep 50 ⟨⟨40, [mapOrderV8 sampleRaw]⟩, none, 9, 3⟩).2.upstreamStarts = 3 :=
  ⟨rfl,
   (freshCacheServesCached 50 ⟨⟨40, [mapOrderV8 sampleRaw]⟩, none, 9, 3⟩ rfl).1,
   (freshCacheServesCached 50 ⟨⟨40, [mapOrderV8 sampleRaw]⟩, none, 9, 3⟩ rfl).2⟩

/-! ## C1 — at most one in-flight refresh under concurrent reads -/

theorem fetchStep_join (now : Nat) (s : ServerState) (id : Nat)
    (hstale : cacheFresh now s.ordersCache = false) (hf : s.inFlightOrders = some id) :
    fetchRealOrdersStep now s = (.pending id, s) := by
  simp [fetchRealOrdersStep, hstale, hf]

theorem foldFetches_join (nows : List Nat) (s : ServerState) (id : Nat)
    (hstale : ∀ n ∈ nows, cacheFresh n s.ordersCache = false)
    (hf : s.inFlightOrders = some id) :
    foldFetches nows s = (List.replicate nows.length (.pending id), s) := by
  induction nows with
  | nil => rfl
  | cons n ns ih =>
    simp [foldFetches, fetchStep_join n s id (hstale n (by simp)) hf,
      ih (fun m hm => hstale m (by simp [hm])), List.replicate_succ]

/-- C1: with the cache stale or empty (`cacheFresh` false — covering both a
zero `fetchedAt` and a nonzero one whose age has reached the TTL) at every
arrival and no refresh in flight, the first `fetchRealOrders` caller
registers a new pending promise in `inFlightOrders` and bumps the
upstream-refresh count by exactly one; every further caller arriving before
that refresh settles — concurrent /orders or /tracking reads — gets that
same pending promise back, with the state (hence the upstream fetch count)
unchanged: the upstream page fetch is started exactly once. -/
theorem singleFlightRefresh (now0 : Nat) (nows : List Nat) (s0 : ServerState)
    (hstale0 : cacheFresh now0 s0.ordersCache = false)
    (hstales : ∀ n ∈ nows, cacheFresh n s0.ordersCache = false)
    (hidle : s0.inFlightOrders = none) :
    fetchRealOrdersStep now0 s0 =
      (FetchResult.pending s0.nextPromise,
       { s0 with
          inFlightOrders := some s0.nextPromise
          nextPromise := s0.nextPromise + 1
          upstreamStarts := s0.upstreamStarts + 1 }) ∧
    foldFetches nows (fetchRealOrdersStep now0 s0).2 =
      (List.replicate nows.length (FetchResult.pending s0.nextPromise),
       (fetchRealOrdersStep now0 s0).2) ∧
    (fetchRealOrdersStep now0 s0).2.upstreamStarts = s0.upstreamStarts + 1 := by
  have h1 : fetchRealOrdersStep now0 s0 =
      (FetchResult.pending s0.nextPromise,
       { s0 with
          inFlightOrders := some s0.nextPromise
          nextPromise := s0.nextPromise + 1
          upstreamStarts := s0.upstreamStarts + 1 }) := by
    simp [fetchRealOrdersStep, hstale0, hidle]
  refine ⟨h1, ?_, by rw [h1]⟩
  rw [h1]
  exact foldFetches_join nows _ s0.nextPromise (fun n hn => hstales n hn) rfl

/-- C1 (witness): a stale cache (fetched at 1 ms, read at 100 000 ms — age
well past the 60 000 ms TTL, `fetchedAt` nonzero) holding one row: the first
caller starts the one refresh, three concurrent joiners all see promise 7
and no further refresh starts. -/
theorem singleFlightRefresh_check :
    cacheFresh 100000 (⟨1, [mapOrderV8 sampleRaw]⟩ : CacheState) = false ∧
    (⟨⟨1, [mapOrderV8 sampleRaw]⟩, none, 7, 0⟩ : ServerState).inFlightOrders = none ∧
    fetchRealOrdersStep 100000 ⟨⟨1, [mapOrderV8 sampleRaw]⟩, none, 7, 0⟩ =
      (FetchResult.pending 7, ⟨⟨1, [mapOrderV8 sampleRaw]⟩, some 7, 8, 1⟩) ∧
    foldFetches [100001, 100002, 100003]
        (fetchRealOrdersStep 100000 ⟨⟨1, [mapOrderV8 sampleRaw]⟩, none, 7, 0⟩).2 =
      (List.replicate 3 (FetchResult.pending 7),
       (fetchRealOrdersStep 100000 ⟨⟨1, [mapOrderV8 sampleRaw]⟩, none, 7, 0⟩).2) ∧
    (fetchRealOrdersStep 100000
        ⟨⟨1, [mapOrderV8 sampleRaw]⟩, none, 7, 0⟩).2.upstreamStarts = 0 + 1 := by
  have h := singleFlightRefresh 100000 [100001, 100002, 100003]
    ⟨⟨1, [mapOrderV8 sampleRaw]⟩, none, 7, 0⟩ rfl (by decide) rfl
  exact ⟨rfl, rfl, h.1, h.2.1, h.2.2⟩

/-! ## C4 — behaviour of the paging loops when a later page fails -/

theorem fetchPagesAux_fail (env : UpstreamEnv) (n : Nat) :
    ∀ (fuel page : Nat) (acc : List RawOrder),
      (∀ i, i < n → ∃ l, env.pages (page + i) = some l ∧ l.length = PAGE_SIZE) →
      env.pages (page + n) = none → n < fuel →
      fetchPagesAux env fuel page acc = none := by
  induction n with
  | zero =>
    intro fuel page acc _ hfail hn
    rcases fuel with _ | f
    · omega
    · rw [Nat.add_zero] at hfail
      simp [fetchPagesAux, hfail]
  | succ n ih =>
    intro fuel page acc hfull hfail hn
    obtain ⟨l, hl, hlen⟩ := hfull 0 (by omega)
    rw [Nat.add_zero] at hl
    rcases fuel with _ | f
    · omega
    · have hstep : fetchPagesAux env (f + 1) page acc =
          fetchPagesAux env f (page + 1) (acc ++ l) := by
        simp [fetchPagesAux, hl, hlen, PAGE_SIZE]
      rw [hstep]
      refine ih f (page + 1) (acc ++ l) ?_ ?_ (by omega)
      · intro i hi
        obtain ⟨l2, hl2, hlen2⟩ := hfull (i + 1) (by omega)
        exact ⟨l2, by rw [show page + 1 + i = page + (i + 1) from by omega]; exact hl2, hlen2⟩
      · rw [show page + 1 + n = page + (n + 1) from by omega]
        exact hfail

theorem syncPagesAux_acc (senv : Nat → Option (List RawOrder)) (n : Nat) :
    ∀ (fuel page total : Nat),
      (∀ i, i < n → ∃ l, senv (page + i) = some l ∧ l.length = 50) →
      senv (page + n) = none → n < fuel →
      syncPagesAux senv fuel page total = total + 50 * n := by
  induction n with
  | zero =>
    intro fuel page total _ hfail hn
    rcases fuel with _ | f
    · omega
    · rw [Nat.add_zero] at hfail
      simp [syncPagesAux, hfail]
  | succ n ih =>
    intro fuel page total hfull hfail hn
    obtain ⟨l, hl, hlen⟩ := hfull 0 (by omega)
    rw [Nat.add_zero] at hl
    rcases fuel with _ | f
    · omega
    · have hstep : syncPagesAux senv (f + 1) page total =
          syncPagesAux senv f (page + 1) (total + l.length) := by
        simp [syncPagesAux, hl, hlen]
      rw [hstep, hlen]
      have hrec := ih f (page + 1) (total + 50) ?_ ?_ (by omega)
      · rw [hrec]; ring
      · intro i hi
        obtain ⟨l2, hl2, hlen2⟩ := hfull (i + 1) (by omega)
        exact ⟨l2, by rw [show page + 1 + i = page + (i + 1) from by omega]; exact hl2, hlen2⟩
      · rw [show page + 1 + n = page + (n + 1) from by omega]
        exact hfail

/-- C4 (counterexample): with page 1 a full page of 50 orders and page 2
throwing, the cached-variant `fetchRealOrders` resolves to the empty list —
its `catch` wraps the whole loop (server.js lines 109–111) — not to the 50
accumulated records the claim promises. -/
theorem partialPagesClaimFails :
    fetchRealOrdersValue envPage2Fails = [] ∧
    (List.replicate 50 sampleRaw).map mapOrderV8 ≠ [] := by
  constructor
  · rfl
  · intro h
    have h50 : ((List.replicate 50 sampleRaw).map mapOrderV8).length = 50 := by simp
    rw [h] at h50
    simp at h50

/-- C4 (amended): when the first k pages succeed as full pages and page k+1
fails, `performSystemSync` (part_000) — whose `catch` sits inside the loop
and breaks — returns the 50·k records accumulated from the successful pages,
while the cached-variant `fetchRealOrders` — whose `catch` wraps the whole
loop — resolves to the empty list, discarding them; neither raises. -/
theorem partialPagesAmended (env : UpstreamEnv) (senv : Nat → Option (List RawOrder))
    (k : Nat) (_hk : 1 ≤ k) (hk5 : k < MAX_PAGES)
    (hfull : ∀ i, i < k → ∃ l, env.pages (1 + i) = some l ∧ l.length = PAGE_SIZE)
    (hfail : env.pages (1 + k) = none)
    (hsfull : ∀ i, i < k → ∃ l, senv (1 + i) = some l ∧ l.length = 50)
    (hsfail : senv (1 + k) = none) :
    fetchRealOrdersValue env = [] ∧ performSystemSyncCount senv = 50 * k := by
  constructor
  · have hnone : fetchAllPagesV8 env = none :=
      fetchPagesAux_fail env k MAX_PAGES 1 [] hfull hfail hk5
    simp [fetchRealOrdersValue, runRefreshV8, hnone]
  · have := syncPagesAux_acc senv k MAX_PAGES 1 0 hsfull hsfail hk5
    simpa [performSystemSyncCount] using this

/-- C4 (witness): one full page then a failure — the cached variant loses
the page, the system sync keeps its 50 records. -/
theorem partialPagesAmended_check :
    fetchRealOrdersValue envPage2Fails = [] ∧
    performSystemSyncCount envPage2Fails.pages = 50 * 1 := by
  refine partialPagesAmended envPage2Fails envPage2Fails.pages 1 (by decide) (by decide)
    ?_ rfl ?_ rfl
  · intro i hi
    have hi0 : i = 0 := by omega
    subst hi0
    exact ⟨List.replicate 50 sampleRaw, rfl, by simp [PAGE_SIZE]⟩
  · intro i hi
    have hi0 : i = 0 := by omega
    subst hi0
    exact ⟨List.replicate 50 sampleRaw, rfl, by simp⟩

/-! ## C5 — short-circuit of non-carrier-format tracking numbers -/

/-- C5 (counterexample): `trackUPS` of part_004 performs no format check:
on an uncached USPS-style number (no "1Z") it still makes the OAuth POST and
the tracking GET — two network calls, not zero — and returns the
Pending-Update error sentinel, not the "Label Created" pre-transit one the
claim promises. -/
theorem shortCircuitClaimFails :
    jsStartsWith "940011189922" "1Z" = false ∧
    (trackUPS_v4 envTrackThrows 1000 "940011189922" ⟨[], 0⟩).2.networkCalls = 2 ∧
    (trackUPS_v4 envTrackThrows 1000 "940011189922" ⟨[], 0⟩).1.status = "Pending Update" ∧
    (trackUPS_v4 envTrackThrows 1000 "940011189922" ⟨[], 0⟩).1.status ≠ "Label Created" := by
  refine ⟨by decide, rfl, rfl, by decide⟩

/-- C5 (amended): `trackWithUPS` (part_001) short-circuits every tracking
number that does not start with "1Z" to the fixed "Label Created /
Pre-Transit" sentinel with the client state — hence its network-call
counters — untouched; `trackUPS` (part_004), by contrast, has no format
check and performs at least one network call for any uncached number. -/
theorem shortCircuitAmended (env : UPSEnv) (now : Nat) (tn : String)
    (s : Client19State) (s4 : Client4State)
    (hpre : jsStartsWith tn "1Z" = false)
    (hmiss : cacheLookup s4.trackingCache tn = none) :
    trackWithUPS_v19 env now tn s = (preTransitSentinel, s) ∧
    s4.networkCalls + 1 ≤ (trackUPS_v4 env now tn s4).2.networkCalls := by
  constructor
  · simp [trackWithUPS_v19, hpre]
  · rw [trackUPS_v4, hmiss]
    simp only [trackFresh_v4]
    cases ho : env.oauthResp with
    | none => simp
    | some tok =>
      cases htr : env.trackResp tn with
      | none => simp
      | some b => simp

/-- C5 (witness): a USPS-style number against an idle part_001 client and an
empty part_004 cache. -/
theorem shortCircuitAmended_check :
    jsStartsWith "940011189922" "1Z" = false ∧
    cacheLookup ([] : List (String × Nat × TrackRecord4)) "940011189922" = none ∧
    trackWithUPS_v19 envTrackThrows 5 "940011189922" ⟨⟨none, 0, 0⟩, 0⟩ =
      (preTransitSentinel, ⟨⟨none, 0, 0⟩, 0⟩) ∧
    0 + 1 ≤ (trackUPS_v4 envTrackThrows 5 "940011189922" ⟨[], 0⟩).2.networkCalls := by
  have h := shortCircuitAmended envTrackThrows 5 "940011189922"
    ⟨⟨none, 0, 0⟩, 0⟩ ⟨[], 0⟩ (by decide) rfl
  exact ⟨by decide, rfl, h.1, h.2⟩

/-! ## C6 — failure sentinel of the carrier tracking lookup -/

/-- C6 (counterexample): a carrier call that answers 2xx with a malformed
(field-less) body is a failure mode the claim covers, yet `trackUPS`
(part_004) treats it as success and produces status "Unknown" with no error
flag — not the claimed `isError=true` / "Pending Update" sentinel. -/
theorem failureSentinelClaimFails :
    envMalformedBody.trackResp "1Z12345E0205271688" = some {} ∧
    (trackUPS_v4 envMalformedBody 1000 "1Z12345E0205271688" ⟨[], 0⟩).1.status = "Unknown" ∧
    (trackUPS_v4 envMalformedBody 1000 "1Z12345E0205271688" ⟨[], 0⟩).1.error = false ∧
    (trackUPS_v4 envMalformedBody 1000 "1Z12345E0205271688" ⟨[], 0⟩).1.status ≠
      "Pending Update" := by
  refine ⟨rfl, rfl, rfl, by decide⟩

/-- C6 (amended): when the carrier tracking call throws (timeout, 4xx, 5xx)
— and, in part_004, also when the OAuth exchange is rejected — `trackUPS`
returns the sentinel record with status "Pending Update" and the error flag
set instead of raising; a 2xx response with a malformed body is instead
parsed as a success with status "Unknown" and no error flag; `trackWithUPS`
(part_001) degrades the same thrown failures to its "Label Created /
Pre-Transit" sentinel. -/
theorem failureSentinelAmended (now : Nat) (tn : String) :
    (∀ env (s4 : Client4State), cacheLookup s4.trackingCache tn = none →
       env.trackResp tn = none →
       (trackUPS_v4 env now tn s4).1 = pendingUpdateSentinel now) ∧
    (∀ env (s6 : Client6State) tok ts, tn ≠ "" →
       cacheLookup s6.trackingCache tn = none →
       getUPSToken_v6 env now s6.token = (some tok, ts) →
       env.trackResp tn = none →
       (trackUPS_v6 env now tn s6).1 = some pendingUpdateSentinelNoTs) ∧
    (∀ env (s4 : Client4State) tok, cacheLookup s4.trackingCache tn = none →
       env.oauthResp = some tok → env.trackResp tn = some {} →
       (trackUPS_v4 env now tn s4).1.status = "Unknown" ∧
       (trackUPS_v4 env now tn s4).1.error = false) ∧
    (∀ env (s19 : Client19State) tok, jsStartsWith tn "1Z" = true →
       (getUPSToken_v13 env now s19.token).1 = some tok →
       env.trackResp tn = none →
       (trackWithUPS_v19 env now tn s19).1 = preTransitSentinel) := by
  refine ⟨?_, ?_, ?_, ?_⟩
  · intro env s4 hmiss htr
    rw [trackUPS_v4, hmiss]
    simp only [trackFresh_v4]
    cases ho : env.oauthResp with
    | none => rfl
    | some tok => simp [htr]
  · intro env s6 tok ts hne hmiss htok htr
    rw [trackUPS_v6, if_neg (by simpa using hne), hmiss]
    simp only [trackFresh_v6, htok]
    simp [htr]
  · intro env s4 tok hmiss hoauth htr
    rw [trackUPS_v4, hmiss]
    simp only [trackFresh_v4, hoauth]
    simp [htr, orTruthy]
  · intro env s19 tok hpre htok htr
    rw [trackWithUPS_v19]
    simp only [hpre, Bool.not_true, Bool.false_eq_true, if_false]
    simp only [htok]
    simp [htr]

/-- C6 (witness): all four amended facts at concrete inputs — a thrown
tracking GET for part_004, part_006 (with a fresh cached token) and
part_001, and a 2xx malformed body for part_004. -/
theorem failureSentinelAmended_check :
    (trackUPS_v4 envTrackThrows 7 "1Z12345E0205271688" ⟨[], 0⟩).1 =
      pendingUpdateSentinel 7 ∧
    (trackUPS_v6 envTrackThrows 7 "1Z12345E0205271688" ⟨⟨some "t", 99, 0⟩, [], 0⟩).1 =
      some pendingUpdateSentinelNoTs ∧
    (trackUPS_v4 envMalformedBody 7 "1Z12345E0205271688" ⟨[], 0⟩).1.status = "Unknown" ∧
    (trackUPS_v4 envMalformedBody 7 "1Z12345E0205271688" ⟨[], 0⟩).1.error = false ∧
    (trackWithUPS_v19 envTrackThrows 7 "1Z12345E0205271688" ⟨⟨some "t", 99, 0⟩, 0⟩).1 =
      preTransitSentinel := by
  have h := failureSentinelAmended 7 "1Z12345E0205271688"
  have h3 := h.2.2.1 envMalformedBody ⟨[], 0⟩ "tok" rfl rfl rfl
  exact ⟨h.1 envTrackThrows ⟨[], 0⟩ rfl rfl,
         h.2.1 envTrackThrows ⟨⟨some "t", 99, 0⟩, [], 0⟩ "t" ⟨some "t", 99, 0⟩
           (by decide) rfl rfl rfl,
         h3.1, h3.2,
         h.2.2.2 envTrackThrows ⟨⟨some "t", 99, 0⟩, 0⟩ "t" (by decide) rfl rfl⟩

/-! ## C7 — the delivered flag matches the status text -/

theorem deliveredConsistent_pending (now : Nat) :
    deliveredConsistent (pendingUpdateSentinel now) := by
  show false = jsIncludes (jsToLower "Pending Update") "delivered"
  decide

theorem trackFresh_v4_consistent (env : UPSEnv) (now : Nat) (tn : String)
    (s4 : Client4State) : deliveredConsistent (trackFresh_v4 env now tn s4).1 := by
  simp only [trackFresh_v4]
  cases ho : env.oauthResp with
  | none => exact deliveredConsistent_pending now
  | some tok =>
    cases htr : env.trackResp tn with
    | none => exact deliveredConsistent_pending now
    | some b => rfl

theorem deliveredConsistent_v6body (b : TrackBody) (now : Nat) (url : String) :
    deliveredConsistent
      ⟨orTruthy b.statusDescription "Unknown", joinCityState b,
       orTruthy b.deliveryDate "--",
       jsIncludes (jsToLower (orTruthy b.statusDescription "")) "delivered", now,
       url, false⟩ := by
  show jsIncludes (jsToLower (orTruthy b.statusDescription "")) "delivered" =
    jsIncludes (jsToLower (orTruthy b.statusDescription "Unknown")) "delivered"
  cases hd : b.statusDescription with
  | none => decide
  | some d =>
    rcases eq_or_ne d "" with he | he
    · subst he; decide
    · rw [orTruthy_of_some _ _ he, orTruthy_of_some _ _ he]

theorem trackFresh_v6_consistent (env : UPSEnv) (now : Nat) (tn : String)
    (s6 : Client6State) : deliveredConsistent (trackFresh_v6 env now tn s6).1 := by
  simp only [trackFresh_v6]
  cases ht : (getUPSToken_v6 env now s6.token).1 with
  | none =>
    show false = jsIncludes (jsToLower "UPS Auth Error") "delivered"
    decide
  | some tok =>
    cases htr : env.trackResp tn with
    | none =>
      show false = jsIncludes (jsToLower "Pending Update") "delivered"
      decide
    | some b =>
      exact deliveredConsistent_v6body b now ("https://www.ups.com/track?tracknum=" ++ tn)

/-- C7: every TrackingRecord a carrier lookup produces — cache hit (granted
the cached records were themselves produced this way), fresh success, or
failure sentinel, in part_004 and part_006 alike — has `delivered = true`
exactly when its status text contains "delivered" case-insensitively. -/
theorem deliveredIffStatus (env : UPSEnv) (now : Nat) (tn : String)
    (s4 : Client4State) (s6 : Client6State)
    (h4 : ∀ e ∈ s4.trackingCache, deliveredConsistent e.2.2)
    (h6 : ∀ e ∈ s6.trackingCache, deliveredConsistent e.2.2) :
    deliveredConsistent (trackUPS_v4 env now tn s4).1 ∧
    (∀ r, (trackUPS_v6 env now tn s6).1 = some r → deliveredConsistent r) := by
  constructor
  · rw [trackUPS_v4]
    cases hc : cacheLookup s4.trackingCache tn with
    | none => exact trackFresh_v4_consistent env now tn s4
    | some p =>
      obtain ⟨e, hfind, hval⟩ := Option.map_eq_some'.mp hc
      have hmem := List.mem_of_find?_eq_some hfind
      rcases p with ⟨ts, d⟩
      by_cases hfr : now - ts < CACHE_DURATION_MS
      · simp only [if_pos hfr]
        have := h4 e hmem
        rw [hval] at this
        exact this
      · simp only [if_neg hfr]
        exact trackFresh_v4_consistent env now tn s4
  · intro r hr
    rw [trackUPS_v6] at hr
    by_cases hemp : tn = ""
    · simp [hemp] at hr
    · rw [if_neg (by simpa using hemp)] at hr
      cases hc : cacheLookup s6.trackingCache tn with
      | none =>
        rw [hc] at hr
        simp only [Option.some.injEq] at hr
        rw [← hr]
        exact trackFresh_v6_consistent env now tn s6
      | some p =>
        rw [hc] at hr
        rcases p with ⟨ts, d⟩
        by_cases hfr : now - ts < CACHE_MS
        · simp only [if_pos hfr, Option.some.injEq] at hr
          obtain ⟨e, hfind, hval⟩ := Option.map_eq_some'.mp hc
          have hmem := List.mem_of_find?_eq_some hfind
          have := h6 e hmem
          rw [hval] at this
          rw [← hr]
          exact this
        · simp only [if_neg hfr, Option.some.injEq] at hr
          rw [← hr]
          exact trackFresh_v6_consistent env now tn s6

/-- C7 (witness): "Delivered to front door" sets the flag, "In Transit"
leaves it unset, and both agree with the consistency invariant. -/
theorem deliveredIffStatus_check :
    (trackUPS_v4 envDelivered 5 "1Z12345E0205271688" ⟨[], 0⟩).1.delivered = true ∧
    (trackUPS_v4 envInTransit 5 "1Z12345E0205271688" ⟨[], 0⟩).1.delivered = false ∧
    deliveredConsistent (trackUPS_v4 envDelivered 5 "1Z12345E0205271688" ⟨[], 0⟩).1 ∧
    deliveredConsistent (trackUPS_v4 envInTransit 5 "1Z12345E0205271688" ⟨[], 0⟩).1 := by
  refine ⟨by decide, by decide, ?_, ?_⟩
  · exact (deliveredIffStatus envDelivered 5 "1Z12345E0205271688" ⟨[], 0⟩
      ⟨⟨none, 0, 0⟩, [], 0⟩ (by simp) (by simp)).1
  · exact (deliveredIffStatus envInTransit 5 "1Z12345E0205271688" ⟨[], 0⟩
      ⟨⟨none, 0, 0⟩, [], 0⟩ (by simp) (by simp)).1

/-! ## C9 — OAuth token caching -/

/-- C9 (counterexample): with no credentials configured and no usable cached
token, part_000's `getUPSToken` returns null without performing any OAuth
exchange (`oauthCalls` stays 0) — contradicting the claim that whenever the
cached-token condition fails the client-credentials exchange is performed. -/
theorem tokenClaimFailsNoCreds :
    (strTruthy (none : Option String) && decide ((5 : Nat) < 0)) = false ∧
    getUPSToken_v13 envNoCreds 5 ⟨none, 0, 0⟩ = (none, ⟨none, 0, 0⟩) ∧
    (getUPSToken_v13 envNoCreds 5 ⟨none, 0, 0⟩).2.oauthCalls = 0 :=
  ⟨rfl, rfl, rfl⟩

/-- C9 (amended): both token helpers return the cached bearer token with no
exchange exactly when a truthy token is cached and now is strictly before
its stored expiry; otherwise part_006 always performs the exchange and
part_000 performs it only when client credentials are configured — with no
credentials it returns null and performs no exchange.  A successful exchange
caches the token with expiry now + 3 500 s (part_000) resp. now + 50 min
(part_006), both with a safety margin below the ~1 h token lifetime; a
rejected exchange leaves the stored token untouched and yields null. -/
theorem tokenCacheAmended (now : Nat) :
    (∀ env (s : TokenState),
       (strTruthy s.upsToken && decide (now < s.upsTokenExpiry)) = true →
       getUPSToken_v13 env now s = (s.upsToken, s) ∧
       getUPSToken_v6 env now s = (s.upsToken, s)) ∧
    (∀ env (s : TokenState) c tok,
       (strTruthy s.upsToken && decide (now < s.upsTokenExpiry)) = false →
       env.creds = some c → env.oauthResp = some tok →
       getUPSToken_v13 env now s =
         (some tok, ⟨some tok, now + 3500 * 1000, s.oauthCalls + 1⟩) ∧
       3500 * 1000 < 3600 * 1000) ∧
    (∀ env (s : TokenState),
       (strTruthy s.upsToken && decide (now < s.upsTokenExpiry)) = false →
       env.creds = none → getUPSToken_v13 env now s = (none, s)) ∧
    (∀ env (s : TokenState) tok,
       (strTruthy s.upsToken && decide (now < s.upsTokenExpiry)) = false →
       env.oauthResp = some tok →
       getUPSToken_v6 env now s =
         (some tok, ⟨some tok, now + 50 * 60 * 1000, s.oauthCalls + 1⟩) ∧
       50 * 60 * 1000 < 60 * 60 * 1000) ∧
    (∀ env (s : TokenState) c,
       (strTruthy s.upsToken && decide (now < s.upsTokenExpiry)) = false →
       env.creds = some c → env.oauthResp = none →
       getUPSToken_v13 env now s = (none, { s with oauthCalls := s.oauthCalls + 1 })) := by
  refine ⟨?_, ?_, ?_, ?_, ?_⟩
  · intro env s h
    constructor <;> simp [getUPSToken_v13, getUPSToken_v6, h]
  · intro env s c tok h hc ho
    refine ⟨?_, by decide⟩
    simp [getUPSToken_v13, h, hc, ho]
  · intro env s h hc
    simp [getUPSToken_v13, h, hc]
  · intro env s tok h ho
    refine ⟨?_, by decide⟩
    simp [getUPSToken_v6, h, ho]
  · intro env s c h hc ho
    simp [getUPSToken_v13, h, hc, ho]

/-- C9 (witness): a fresh cached token is served without exchange; a stale
one with configured credentials triggers one exchange in both variants; with
no credentials part_000 exchanges nothing. -/
theorem tokenCacheAmended_check :
    getUPSToken_v13 envTrackThrows 5 ⟨some "t", 99, 0⟩ = (some "t", ⟨some "t", 99, 0⟩) ∧
    getUPSToken_v6 envTrackThrows 5 ⟨some "t", 99, 0⟩ = (some "t", ⟨some "t", 99, 0⟩) ∧
    getUPSToken_v13 envTrackThrows 100 ⟨some "t", 99, 2⟩ =
      (some "tok", ⟨some "tok", 100 + 3500 * 1000, 3⟩) ∧
    getUPSToken_v6 envTrackThrows 100 ⟨some "t", 99, 2⟩ =
      (some "tok", ⟨some "tok", 100 + 50 * 60 * 1000, 3⟩) ∧
    getUPSToken_v13 envNoCreds 100 ⟨some "t", 99, 2⟩ = (none, ⟨some "t", 99, 2⟩) := by
  have hfresh := (tokenCacheAmended 5).1 envTrackThrows ⟨some "t", 99, 0⟩ (by decide)
  have hx13 := (tokenCacheAmended 100).2.1 envTrackThrows ⟨some "t", 99, 2⟩
    "id:secret" "tok" (by decide) rfl rfl
  have hx6 := (tokenCacheAmended 100).2.2.2.1 envTrackThrows ⟨some "t", 99, 2⟩
    "tok" (by decide) rfl
  have hnc := (tokenCacheAmended 100).2.2.1 envNoCreds ⟨some "t", 99, 2⟩ (by decide) rfl
  exact ⟨hfresh.1, hfresh.2, hx13.1, hx6.1, hnc⟩

/-! ## C10 — POST /sync/orders resets the cache before refreshing -/

/-- C10: the sync handler first overwrites the cache with
`{fetchedAt: 0, data: []}` and only then launches the refresh, so when the
refresh fails (the error path resolves to the empty list) the previously
cached rows are gone: the handler answers 500 `{success:false}`, the cache
stays empty and un-timestamped, and every subsequent read against the same
failing upstream serves an empty collection — the prior cache contents are
not restored. -/
theorem syncResetNotAtomic (env : UpstreamEnv) (s : ServerState) (now now2 : Nat)
    (hidle : s.inFlightOrders = none) (hfail : env.pages 1 = none) :
    (syncOrdersRun env now now2 s).1 = ⟨500, false, none⟩ ∧
    (syncOrdersRun env now now2 s).2.ordersCache = ⟨0, []⟩ ∧
    (syncOrdersRun env now now2 s).2.inFlightOrders = none ∧
    (∀ page limit now3 now4,
       (ordersGETRun env now3 now4 page limit (syncOrdersRun env now now2 s).2).1.data = [] ∧
       (ordersGETRun env now3 now4 page limit (syncOrdersRun env now now2 s).2).1.total = 0) := by
  have hall : fetchAllPagesV8 env = none :=
    fetchPagesAux_fail env 0 MAX_PAGES 1 [] (by intro i hi; omega)
      (by simpa using hfail) (by decide)
  have hrun : runRefreshV8 env = none := by
    simp [runRefreshV8, hall]
  have hsync : syncOrdersRun env now now2 s =
      (⟨500, false, none⟩,
       { ordersCache := ⟨0, []⟩
         inFlightOrders := none
         nextPromise := s.nextPromise + 1
         upstreamStarts := s.upstreamStarts + 1 }) := by
    simp [syncOrdersRun, fetchRealOrdersStep, cacheFresh, hidle, refreshSettle, hrun]
  have hget : ∀ page limit now3 now4,
      (ordersGETRun env now3 now4 page limit ((syncOrdersRun env now now2 s).2)).1 =
        paginateV8 [] page limit := by
    intro page limit now3 now4
    rw [hsync]
    simp [ordersGETRun, fetchRealOrdersStep, cacheFresh, refreshSettle, hrun]
  refine ⟨by rw [hsync], by rw [hsync], by rw [hsync], ?_⟩
  intro page limit now3 now4
  rw [hget]
  constructor
  · show (([] : List MergedOrder).drop ((page - 1) * limit)).take limit = []
    simp
  · rfl

/-- C10 (witness): a server holding one previously cached order loses it on
a failing sync: 500 response, emptied cache, empty subsequent reads. -/
theorem syncResetNotAtomic_check :
    (⟨⟨500, [mapOrderV8 sampleRaw]⟩, none, 0, 0⟩ : ServerState).ordersCache.data ≠ [] ∧
    (syncOrdersRun envPage1Fails 1000 1001 ⟨⟨500, [mapOrderV8 sampleRaw]⟩, none, 0, 0⟩).1 =
      ⟨500, false, none⟩ ∧
    (syncOrdersRun envPage1Fails 1000 1001 ⟨⟨500, [mapOrderV8 sampleRaw]⟩, none, 0, 0⟩).2.ordersCache =
      ⟨0, []⟩ ∧
    (ordersGETRun envPage1Fails 2000 2001 1 25
       (syncOrdersRun envPage1Fails 1000 1001
         ⟨⟨500, [mapOrderV8 sampleRaw]⟩, none, 0, 0⟩).2).1.data = [] ∧
    (ordersGETRun envPage1Fails 2000 2001 1 25
       (syncOrdersRun envPage1Fails 1000 1001
         ⟨⟨500, [mapOrderV8 sampleRaw]⟩, none, 0, 0⟩).2).1.total = 0 := by
  have h := syncResetNotAtomic envPage1Fails
    ⟨⟨500, [mapOrderV8 sampleRaw]⟩, none, 0, 0⟩ 1000 1001 rfl rfl
  have hr := h.2.2.2 1 25 2000 2001
  exact ⟨by simp [mapOrderV8], h.1, h.2.1, hr.1, hr.2⟩

end PackTrack
